import Mathlib

/-
Verification development for the hikari HTTP request pipeline
(src/hikari/net/http_client.py).  The shallow embedding below follows
HTTPClient.__init__ (lines 59-97) and HTTPClient._request together with
HTTPClient._handle_bad_response (lines 111-256).

Modelling conventions:
  - The aiohttp response is a record of the fields the code reads: status,
    reason, Content-Type, the four X-RateLimit headers (already parsed with
    the defaults the code applies at lines 188-193), the Date header as an
    instant, and the result that json_deserialize would give for the raw
    body bytes.
  - Instants and durations are rational numbers (epoch seconds).
  - JSON values are the inductive JValue; the Python subscript, truthiness,
    int() and float() operations on them are embedded with their CPython
    error behaviour (TypeError / KeyError / ValueError).
  - Side effects of one request (seeking resources, awaiting limiters,
    the transport send, ratelimiter.update_rate_limits,
    global_ratelimiter.throttle, backoff sleeps) are recorded as an event
    trace; the transport is driven by a list of responses, one per
    iteration of the while-True loop.
  - ExponentialBackOff and the rate limiters live in hikari/net/ratelimits.py,
    which is not among the repository files available here; per the spec
    (sections 4.2 and 4.3) the backoff generator is modelled as the finite
    list of delays it will yield before signalling exhaustion, and the
    limiters by the calls made into them.
-/

namespace HikariHttp

/-- Python exception kinds that the embedded fragment can raise. -/
inductive PyErr where
  | typeError
  | keyError
  | valueError
deriving DecidableEq, Repr

/-- JSON values as json.loads would produce them (dicts kept as ordered
association lists with distinct keys). -/
inductive JValue where
  | null
  | jbool (b : Bool)
  | num (q : ℚ)
  | str (s : String)
  | arr (xs : List JValue)
  | obj (fields : List (String × JValue))

/-- Lookup of a key in a JSON object field list (dict lookup). -/
def lookupField : List (String × JValue) → String → Option JValue
  | [], _ => none
  | (k, v) :: rest, key => if k = key then some v else lookupField rest key

/-- Python subscript body[key] where body is None or a decoded JSON value:
a dict looks the key up (KeyError when absent); None and every non-dict
value raise TypeError for a string key. -/
def pySubscript : Option JValue → String → Except PyErr JValue
  | none, _ => .error .typeError
  | some (.obj fields), key =>
      match lookupField fields key with
      | some v => .ok v
      | none => .error .keyError
  | some _, _ => .error .typeError

/-- Python truthiness of a decoded JSON value. -/
def truthy : JValue → Bool
  | .null => false
  | .jbool b => b
  | .num q => q ≠ 0
  | .str s => s ≠ ""
  | .arr xs => !xs.isEmpty
  | .obj fields => !fields.isEmpty

/-- Truncation toward zero, the rounding of the Python int() builtin on
floats. -/
def ratTrunc (q : ℚ) : Int :=
  Int.tdiv q.num (Int.ofNat q.den)

/-- Python int(x) on a decoded JSON value: numbers truncate toward zero,
booleans become 0 or 1, strings parse as (optionally signed) decimal
integers or raise ValueError, and every other value raises TypeError. -/
def pyInt : JValue → Except PyErr Int
  | .num q => .ok (ratTrunc q)
  | .jbool b => .ok (if b then 1 else 0)
  | .str s =>
      match s.toInt? with
      | some n => .ok n
      | none => .error .valueError
  | _ => .error .typeError

/-- Python float(x) on a decoded JSON value: numbers pass through,
booleans become 0 or 1, strings parse as numerals (integer literals in
this model) or raise ValueError, and every other value raises TypeError. -/
def pyFloat : JValue → Except PyErr ℚ
  | .num q => .ok q
  | .jbool b => .ok (if b then 1 else 0)
  | .str s =>
      match s.toInt? with
      | some n => .ok (n : ℚ)
      | none => .error .valueError
  | _ => .error .typeError

/-- One HTTP response as the code reads it at lines 175-196: the header
integers carry the defaults of lines 188-191 (limit/remaining default 1,
bucket defaults to the string None, reset defaults 0), nowDate is the
parsed Date header, and decoded is what json_deserialize(raw_body) would
produce (or the Python error it would raise). -/
structure Response where
  status : Nat
  httpReason : String
  contentType : String
  limit : Int
  remaining : Int
  bucket : String
  reset : ℚ
  nowDate : ℚ
  decoded : Except PyErr JValue
  rawText : String

/-- The structured errors of hikari/net/errors.py that _request raises:
each carries the compiled route plus the message and code pulled from the
body (the client variant also keeps the status line text, the server
variant the reason and status). -/
inductive HTTPError where
  | badRequest (route : String) (message : JValue) (code : Int)
  | unauthorized (route : String) (message : JValue) (code : Int)
  | forbidden (route : String) (message : JValue) (code : Int)
  | notFound (route : String) (message : JValue) (code : Int)
  | clientError (status : Nat) (httpReason : String) (route : String)
      (message : JValue) (code : Int)
  | serverError (reason : String) (route : String) (message : JValue)
      (status : Nat)

/-- Observable side effects of _request, in program order. -/
inductive Event where
  | acquireBucket
  | seek (i : Nat)
  | awaitBucketFuture
  | acquireGlobal
  | send (attempt : Nat)
  | updateRL (route realHash bucket : String) (remaining limit : Int)
      (nowDate resetDate : ℚ)
  | throttleGlobal (seconds : ℚ)
  | backoffSleep (seconds : ℚ)

/-- How one iteration of the while-True loop ends. -/
inductive StepResult where
  | retry
  | done (body : Option JValue)
  | fail (e : HTTPError)
  | crash (e : PyErr)

/-- Outcome of a whole _request run over a finite response trace. -/
inductive Outcome where
  | returns (body : Option JValue)
  | raises (e : HTTPError)
  | pyError (e : PyErr)
  | transportPending

/-- Branch taken by the body-decoding block at lines 198-212.  The
assignment body = None at lines 198-199 for status 204 is mirrored by a
comment only: every subsequent branch either reassigns body, leaves the
iteration, or assigns None again, so it has no observable effect. -/
inductive BodyBranch where
  | ok (body : Option JValue)
  | badContent
  | decodeCrash (e : PyErr)

/-- Lines 198-212: application/json bodies are deserialized (a failing
deserialization propagates the Python error), text/plain and text/html
divert to _handle_bad_response and continue, and every other content type
leaves body = None. -/
def computeBody (r : Response) : BodyBranch :=
  if r.contentType = "application/json" then
    match r.decoded with
    | .ok v => .ok (some v)
    | .error e => .decodeCrash e
  else if r.contentType = "text/plain" ∨ r.contentType = "text/html" then
    .badContent
  else
    .ok none

/-- Lines 250-256 (_handle_bad_response): ask the backoff generator for the
next delay; when one is available sleep it and let the loop continue, and
when the generator signals exhaustion raise ServerHTTPError(reason, route,
message, status). -/
def handleBadResponse (backoff : List ℚ) (reason route : String)
    (message : JValue) (status : Nat) :
    List Event × List ℚ × StepResult :=
  match backoff with
  | nextSleep :: rest => ([.backoffSleep nextSleep], rest, .retry)
  | [] => ([], [], .fail (.serverError reason route message status))

/-- Lines 225-230: pull message and code out of the body.  The except
clause catches only ValueError and KeyError; a TypeError (body None, or a
non-dict body, or int() of a non-numeric value) propagates uncaught. -/
def extractMessageCode (body : Option JValue) :
    Except PyErr (JValue × Int) :=
  match pySubscript body "message" with
  | .error .keyError => .ok (.str "", -1)
  | .error e => .error e
  | .ok message =>
      match pySubscript body "code" with
      | .error .keyError => .ok (.str "", -1)
      | .error e => .error e
      | .ok c =>
          match pyInt c with
          | .error .valueError => .ok (.str "", -1)
          | .error e => .error e
          | .ok code => .ok (message, code)

/-- Lines 218-248, the classification that follows update_rate_limits: a
429 reads the global flag (throttling the global limiter by
retry_after / 1000 when it is truthy) and continues; a 4xx extracts
message and code and raises the matching error; a status of 500 or more
goes through _handle_bad_response; anything else returns the body. -/
def classify (route : String) (r : Response) (body : Option JValue)
    (backoff : List ℚ) : List Event × List ℚ × StepResult :=
  if r.status = 429 then
    match pySubscript body "global" with
    | .error e => ([], backoff, .crash e)
    | .ok g =>
        if truthy g then
          match pySubscript body "retry_after" with
          | .error e => ([], backoff, .crash e)
          | .ok v =>
              match pyFloat v with
              | .error e => ([], backoff, .crash e)
              | .ok q => ([.throttleGlobal (q / 1000)], backoff, .retry)
        else
          ([], backoff, .retry)
  else if 400 ≤ r.status then
    match extractMessageCode body with
    | .error e => ([], backoff, .crash e)
    | .ok (message, code) =>
        if r.status = 400 then
          ([], backoff, .fail (.badRequest route message code))
        else if r.status = 401 then
          ([], backoff, .fail (.unauthorized route message code))
        else if r.status = 403 then
          ([], backoff, .fail (.forbidden route message code))
        else if r.status = 404 then
          ([], backoff, .fail (.notFound route message code))
        else if r.status < 500 then
          ([], backoff,
            .fail (.clientError r.status r.httpReason route message code))
        else
          handleBadResponse backoff "Received a server error response"
            route message r.status
  else
    ([], backoff, .done body)

/-- Events every iteration emits before interpreting the response: the
seek(0) of each re-seekable resource (lines 140-141), the gather over the
bucket future and global_ratelimiter.acquire() (line 147), and the
transport send (lines 166-174). -/
def preSendEvents (nRes attempt : Nat) : List Event :=
  (List.range nRes).map Event.seek ++
    [.awaitBucketFuture, .acquireGlobal, .send attempt]

/-- One iteration of the while-True loop (lines 137-248) applied to the
response the transport yields: text/plain and text/html divert to
_handle_bad_response and continue without calling update_rate_limits;
every other branch reaches the update_rate_limits call of lines 214-216
and then classifies the status. -/
def interpretAttempt (route realHash : String) (nRes attempt : Nat)
    (r : Response) (backoff : List ℚ) :
    List Event × List ℚ × StepResult :=
  match computeBody r with
  | .decodeCrash e => (preSendEvents nRes attempt, backoff, .crash e)
  | .badContent =>
      let h := handleBadResponse backoff
        ("Received unexpected response of type " ++ r.contentType)
        route (.str r.rawText) r.status
      (preSendEvents nRes attempt ++ h.1, h.2.1, h.2.2)
  | .ok body =>
      let c := classify route r body backoff
      (preSendEvents nRes attempt ++
        Event.updateRL route realHash r.bucket r.remaining r.limit
          r.nowDate r.reset :: c.1,
        c.2.1, c.2.2)

/-- The while-True loop run against a finite trace of transport responses:
a retry consumes the next response with the same route, resources and the
threaded backoff state; when the trace runs out while the loop would send
again the outcome is transportPending. -/
def requestLoop (route realHash : String) (nRes : Nat) :
    List ℚ → List Response → Nat → List Event × Outcome
  | _, [], _ => ([], .transportPending)
  | backoff, r :: rest, attempt =>
      match interpretAttempt route realHash nRes attempt r backoff with
      | (evs, backoff2, .retry) =>
          let next := requestLoop route realHash nRes backoff2 rest
            (attempt + 1)
          (evs ++ next.1, next.2)
      | (evs, _, .done b) => (evs, .returns b)
      | (evs, _, .fail e) => (evs, .raises e)
      | (evs, _, .crash e) => (evs, .pyError e)

/-- A whole _request run: ratelimiter.acquire(compiled_route) happens once
at line 123, before the loop, and only then the loop starts. -/
def runRequest (route realHash : String) (nRes : Nat) (backoff : List ℚ)
    (responses : List Response) : List Event × Outcome :=
  let run := requestLoop route realHash nRes backoff responses 0
  (Event.acquireBucket :: run.1, run.2)

/-- The class attribute _AUTHENTICATION_SCHEMES of line 57. -/
def AUTHENTICATION_SCHEMES : List String := ["Bearer", "Bot"]

/-- Character-list prefix test backing the Python str.startswith embedding. -/
def leadsWith : List Char → List Char → Bool
  | [], _ => true
  | _ :: _, [] => false
  | p :: ps, c :: cs => p == c && leadsWith ps cs

/-- Python s.startswith(p) for single string arguments. -/
def pyStartswith (s p : String) : Bool :=
  leadsWith p.toList s.toList

/-- Python token.startswith(self._AUTHENTICATION_SCHEMES): true when the
token starts with any scheme of the tuple. -/
def startsWithScheme (token : String) : Bool :=
  AUTHENTICATION_SCHEMES.any fun scheme => pyStartswith token scheme

/-- Lines 93-97 of HTTPClient.__init__: a token that is not None and does
not start with an authentication scheme raises RuntimeError; otherwise the
token is stored on the client. -/
def initHTTPClient (token : Option String) : Except String (Option String) :=
  match token with
  | some t =>
      if !startsWithScheme t then
        .error "RuntimeError: token should begin with Bearer or Bot"
      else
        .ok (some t)
  | none => .ok none

/-- Python dict assignment d[k] = v on an insertion-ordered association
list: overwrite in place when the key exists, append otherwise. -/
def dictSet (d : List (String × String)) (k v : String) :
    List (String × String) :=
  if d.any fun kv => kv.1 = k then
    d.map fun kv => if kv.1 = k then (k, v) else kv
  else
    d ++ [(k, v)]

/-- Python dict.update(extra) over the same representation. -/
def dictUpdate (d extra : List (String × String)) :
    List (String × String) :=
  extra.foldl (fun acc kv => dictSet acc kv.1 kv.2) d

/-- Lines 124-133: the request headers start from the rate-limit precision
hint; Authorization is added only when the stored token is not None; the
audit reason and any caller-supplied headers follow. -/
def buildRequestHeaders (token reasonHeader : Option String)
    (userHeaders : Option (List (String × String))) :
    List (String × String) :=
  let h := [("X-RateLimit-Precision", "millisecond")]
  let h := match token with
    | some t => dictSet h "Authorization" t
    | none => h
  let h := match reasonHeader with
    | some rs => dictSet h "X-Audit-Log-Reason" rs
    | none => h
  match userHeaders with
  | some extra => dictUpdate h extra
  | none => h

/-- Recognizer for transport send events. -/
def isSend : Event → Bool
  | .send _ => true
  | _ => false

/-- Recognizer for the once-per-request ratelimiter.acquire call. -/
def isAcquireBucket : Event → Bool
  | .acquireBucket => true
  | _ => false

/-- Recognizer for global_ratelimiter.acquire() calls. -/
def isAcquireGlobal : Event → Bool
  | .acquireGlobal => true
  | _ => false

/-- Recognizer for awaits of the bucket future obtained at line 123. -/
def isAwaitBucketFuture : Event → Bool
  | .awaitBucketFuture => true
  | _ => false

/-- Recognizer for update_rate_limits calls. -/
def isUpdateRL : Event → Bool
  | .updateRL _ _ _ _ _ _ _ => true
  | _ => false

/-- Recognizer for backoff sleeps. -/
def isBackoffSleep : Event → Bool
  | .backoffSleep _ => true
  | _ => false

/-- Recognizer for resource rewinds. -/
def isSeek : Event → Bool
  | .seek _ => true
  | _ => false

/-- Number of events of a given kind in a trace. -/
def countEvents (p : Event → Bool) (evs : List Event) : Nat :=
  (evs.filter p).length

/-- Events that the interpretation of a response can add after the send:
update_rate_limits, a global throttle, or a backoff sleep. -/
def interpOnly : Event → Bool
  | .updateRL _ _ _ _ _ _ _ => true
  | .throttleGlobal _ => true
  | .backoffSleep _ => true
  | _ => false

theorem classify_events_interpOnly (route : String) (r : Response)
    (body : Option JValue) (backoff : List ℚ) :
    (classify route r body backoff).1.all interpOnly = true := by
  unfold classify handleBadResponse
  repeat' split
  all_goals simp [interpOnly]

theorem interpretAttempt_shape (route realHash : String) (nRes attempt : Nat)
    (r : Response) (backoff : List ℚ) :
    ∃ tail, (interpretAttempt route realHash nRes attempt r backoff).1 =
        preSendEvents nRes attempt ++ tail ∧ tail.all interpOnly = true := by
  unfold interpretAttempt handleBadResponse
  cases hcb : computeBody r with
  | decodeCrash e => exact ⟨[], by simp, rfl⟩
  | badContent =>
      cases backoff with
      | nil => exact ⟨[], by simp, rfl⟩
      | cons d tl => exact ⟨[.backoffSleep d], by simp, by simp [interpOnly]⟩
  | ok body =>
      refine ⟨Event.updateRL route realHash r.bucket r.remaining r.limit
        r.nowDate r.reset :: (classify route r body backoff).1, by simp, ?_⟩
      simp [interpOnly, classify_events_interpOnly]

/-- C1: a 429 response whose JSON body carries a truthy global flag makes
the executor throttle the process-wide global limiter by
retry_after / 1000 seconds (retry_after read from the body, milliseconds)
right after update_rate_limits, and the loop continues with the next
attempt instead of surfacing the 429 as a terminal error: the run over
the trace r :: rest proceeds into rest with the same backoff state and
ends with the outcome of the retried attempts. -/
theorem global429ThrottlesAndRetries (route realHash : String)
    (nRes attempt : Nat) (r : Response) (backoff : List ℚ)
    (fields : List (String × JValue)) (g : JValue) (q : ℚ)
    (hst : r.status = 429)
    (hct : r.contentType = "application/json")
    (hdec : r.decoded = .ok (.obj fields))
    (hg : lookupField fields "global" = some g)
    (hgt : truthy g = true)
    (hra : ∃ v, lookupField fields "retry_after" = some v ∧ pyFloat v = .ok q) :
    interpretAttempt route realHash nRes attempt r backoff =
      (preSendEvents nRes attempt ++
        [Event.updateRL route realHash r.bucket r.remaining r.limit
          r.nowDate r.reset,
         Event.throttleGlobal (q / 1000)],
        backoff, .retry) ∧
    ∀ rest, requestLoop route realHash nRes backoff (r :: rest) attempt =
      ((interpretAttempt route realHash nRes attempt r backoff).1 ++
        (requestLoop route realHash nRes backoff rest (attempt + 1)).1,
        (requestLoop route realHash nRes backoff rest (attempt + 1)).2) := by
  obtain ⟨v, hv, hq⟩ := hra
  have hcb : computeBody r = .ok (some (.obj fields)) := by
    simp [computeBody, hct, hdec]
  have hsub : pySubscript (some (JValue.obj fields)) "global" = .ok g := by
    simp [pySubscript, hg]
  have hsub2 : pySubscript (some (JValue.obj fields)) "retry_after" = .ok v := by
    simp [pySubscript, hv]
  have h1 : interpretAttempt route realHash nRes attempt r backoff =
      (preSendEvents nRes attempt ++
        [Event.updateRL route realHash r.bucket r.remaining r.limit
          r.nowDate r.reset,
         Event.throttleGlobal (q / 1000)],
        backoff, .retry) := by
    simp [interpretAttempt, hcb, classify, hst, hsub, hgt, hsub2, hq]
  refine ⟨h1, fun rest => ?_⟩
  simp [requestLoop, h1]

/-- Response for the C1 witness: status 429, JSON body with global true
and retry_after 1500 milliseconds. -/
def sample429Global : Response :=
  { status := 429, httpReason := "Too Many Requests",
    contentType := "application/json", limit := 5, remaining := 0,
    bucket := "abc", reset := 100, nowDate := 90,
    decoded := .ok (.obj
      [("global", .jbool true), ("retry_after", .num 1500)]),
    rawText := "" }

/-- Witness for C1 at the scenario of the spec: retry_after 1500 throttles
the global limiter by 1500 / 1000 = 1.5 seconds and the attempt retries
with the backoff sequence untouched. -/
theorem global429ThrottlesAndRetriesWitness :
    interpretAttempt "routeA" "hashA" 1 0 sample429Global [7] =
      (preSendEvents 1 0 ++
        [Event.updateRL "routeA" "hashA" "abc" 0 5 90 100,
         Event.throttleGlobal (1500 / 1000)],
        [7], .retry) ∧ (1500 / 1000 : ℚ) = 3 / 2 :=
  ⟨(global429ThrottlesAndRetries "routeA" "hashA" 1 0 sample429Global [7]
      [("global", .jbool true), ("retry_after", .num 1500)]
      (.jbool true) 1500 rfl rfl rfl rfl rfl
      ⟨.num 1500, rfl, rfl⟩).1,
    by norm_num⟩

/-- C6: any 429 whose JSON body carries the scope flag (global or bucket
scoped) makes the loop retry at once: the backoff state is returned
unchanged, no backoff sleep happens, and the run over r :: rest continues
into rest instead of raising the rate-limit rejection to the caller. -/
theorem rateLimit429NeverSurfaced (route realHash : String)
    (nRes attempt : Nat) (r : Response) (backoff : List ℚ)
    (fields : List (String × JValue)) (g : JValue)
    (hst : r.status = 429)
    (hct : r.contentType = "application/json")
    (hdec : r.decoded = .ok (.obj fields))
    (hg : lookupField fields "global" = some g)
    (hra : truthy g = true →
      ∃ v q, lookupField fields "retry_after" = some v ∧ pyFloat v = .ok q) :
    ∃ evs, interpretAttempt route realHash nRes attempt r backoff =
        (evs, backoff, .retry) ∧
      evs.all (fun e => !isBackoffSleep e) = true ∧
      ∀ rest, requestLoop route realHash nRes backoff (r :: rest) attempt =
        (evs ++ (requestLoop route realHash nRes backoff rest (attempt + 1)).1,
          (requestLoop route realHash nRes backoff rest (attempt + 1)).2) := by
  have hcb : computeBody r = .ok (some (.obj fields)) := by
    simp [computeBody, hct, hdec]
  have hsub : pySubscript (some (JValue.obj fields)) "global" = .ok g := by
    simp [pySubscript, hg]
  by_cases hgt : truthy g = true
  · obtain ⟨v, q, hv, hq⟩ := hra hgt
    have hsub2 : pySubscript (some (JValue.obj fields)) "retry_after" = .ok v := by
      simp [pySubscript, hv]
    have h1 : interpretAttempt route realHash nRes attempt r backoff =
        (preSendEvents nRes attempt ++
          [Event.updateRL route realHash r.bucket r.remaining r.limit
            r.nowDate r.reset,
           Event.throttleGlobal (q / 1000)],
          backoff, .retry) := by
      simp [interpretAttempt, hcb, classify, hst, hsub, hgt, hsub2, hq]
    refine ⟨_, h1, ?_, fun rest => ?_⟩
    · simp [preSendEvents, isBackoffSleep, List.all_append]
    · simp [requestLoop, h1]
  · have h1 : interpretAttempt route realHash nRes attempt r backoff =
        (preSendEvents nRes attempt ++
          [Event.updateRL route realHash r.bucket r.remaining r.limit
            r.nowDate r.reset],
          backoff, .retry) := by
      simp [interpretAttempt, hcb, classify, hst, hsub, hgt]
    refine ⟨_, h1, ?_, fun rest => ?_⟩
    · simp [preSendEvents, isBackoffSleep, List.all_append]
    · simp [requestLoop, h1]

/-- Response for the C6 witness: a bucket-scoped 429 (global false). -/
def sample429Bucket : Response :=
  { status := 429, httpReason := "Too Many Requests",
    contentType := "application/json", limit := 3, remaining := 0,
    bucket := "b2", reset := 50, nowDate := 40,
    decoded := .ok (.obj [("global", .jbool false), ("retry_after", .num 200)]),
    rawText := "" }

/-- Witness for C6: the bucket-scoped 429 retries with the backoff
sequence untouched. -/
theorem rateLimit429NeverSurfacedWitness :
    (interpretAttempt "routeB" "hashB" 0 0 sample429Bucket [4]).2 =
      ([4], .retry) := by
  obtain ⟨evs, heq, -, -⟩ := rateLimit429NeverSurfaced "routeB" "hashB" 0 0
    sample429Bucket [4]
    [("global", .jbool false), ("retry_after", .num 200)]
    (.jbool false) rfl rfl rfl rfl
    (fun h => ⟨.num 200, 200, rfl, rfl⟩)
  rw [heq]

/-- Response refuting C2: a text/plain response, for which lines 202-210
divert to _handle_bad_response and continue before the
update_rate_limits call of line 214 is ever reached. -/
def samplePlainC2 : Response :=
  { status := 200, httpReason := "OK", contentType := "text/plain",
    limit := 2, remaining := 1, bucket := "p", reset := 10, nowDate := 5,
    decoded := .error .valueError, rawText := "gateway error page" }

/-- Counterexample to C2: the attempt on a text/plain response emits no
update_rate_limits call at all (its full event list is the seeks, the two
limiter awaits, the send and the backoff sleep), so a response of content
type text/plain does not result in an update call. -/
theorem plainResponseSkipsUpdateCounterexample :
    interpretAttempt "routeC" "hashC" 0 0 samplePlainC2 [3] =
      ([.awaitBucketFuture, .acquireGlobal, .send 0, .backoffSleep 3],
        [], .retry) ∧
    countEvents isUpdateRL
      (interpretAttempt "routeC" "hashC" 0 0 samplePlainC2 [3]).1 = 0 :=
  ⟨rfl, rfl⟩

/-- C2 amended: update_rate_limits is fed the rate-limit headers (bucket,
remaining, limit, server date, reset) right after the send and before any
classification of the outcome, for every response except one whose
content type is text/plain or text/html (which skips the update and goes
to the backoff retry path) or an application/json response whose body
does not deserialize (where the deserializer error propagates first). -/
theorem updateCalledBeforeClassification (route realHash : String)
    (nRes attempt : Nat) (r : Response) (backoff : List ℚ)
    (hplain : r.contentType ≠ "text/plain")
    (hhtml : r.contentType ≠ "text/html")
    (hdec : r.contentType = "application/json" → ∃ v, r.decoded = .ok v) :
    ∃ tail bk st, interpretAttempt route realHash nRes attempt r backoff =
      (preSendEvents nRes attempt ++
        Event.updateRL route realHash r.bucket r.remaining r.limit
          r.nowDate r.reset :: tail,
        bk, st) := by
  by_cases hj : r.contentType = "application/json"
  · obtain ⟨v, hv⟩ := hdec hj
    have hcb : computeBody r = .ok (some v) := by simp [computeBody, hj, hv]
    exact ⟨(classify route r (some v) backoff).1,
      (classify route r (some v) backoff).2.1,
      (classify route r (some v) backoff).2.2,
      by simp [interpretAttempt, hcb]⟩
  · have hcb : computeBody r = .ok none := by
      simp [computeBody, hj, hplain, hhtml]
    exact ⟨(classify route r none backoff).1,
      (classify route r none backoff).2.1,
      (classify route r none backoff).2.2,
      by simp [interpretAttempt, hcb]⟩

/-- Response used by the C2 witness: an image/png response. -/
def samplePngC2 : Response :=
  { status := 200, httpReason := "OK", contentType := "image/png",
    limit := 2, remaining := 1, bucket := "p", reset := 10, nowDate := 5,
    decoded := .error .valueError, rawText := "" }

/-- Witness for the amended C2 at a concrete non-text response. -/
theorem updateCalledBeforeClassificationWitness :
    ∃ tail bk st, interpretAttempt "routeC2" "hashC2" 0 0 samplePngC2 [] =
      (preSendEvents 0 0 ++
        Event.updateRL "routeC2" "hashC2" "p" 1 2 5 10 :: tail, bk, st) :=
  updateCalledBeforeClassification "routeC2" "hashC2" 0 0 samplePngC2 []
    (by decide) (by decide) (fun h => absurd h (by decide))

/-- Response refuting C3: an application/xml body on a 200. -/
def sampleXmlC3 : Response :=
  { status := 200, httpReason := "OK", contentType := "application/xml",
    limit := 1, remaining := 1, bucket := "x", reset := 0, nowDate := 0,
    decoded := .error .valueError, rawText := "<err/>" }

/-- Counterexample to C3: a 200 response of content type application/xml
(unexpected, not application/json) is not retried via the backoff
generator: the attempt returns body None to the caller as a success and
leaves the backoff sequence untouched. -/
theorem xmlResponseReturnedAsSuccessCounterexample :
    interpretAttempt "routeD" "hashD" 0 0 sampleXmlC3 [5] =
      ([.awaitBucketFuture, .acquireGlobal, .send 0,
        .updateRL "routeD" "hashD" "x" 1 1 0 0],
        [5], .done none) :=
  rfl

/-- C3 amended: only the content types text/plain and text/html are
treated as transient failures — they consume the next backoff delay and
retry, or raise ServerHTTPError when the generator is exhausted, whatever
the status; any other unexpected (non application/json) content type on
an otherwise-successful status leaves the body undecoded as None and
returns it to the caller as a success. -/
theorem onlyTextContentRetried (route realHash : String)
    (nRes attempt : Nat) (r : Response) (backoff : List ℚ) :
    ((r.contentType = "text/plain" ∨ r.contentType = "text/html") →
      (backoff = [] →
        interpretAttempt route realHash nRes attempt r backoff =
          (preSendEvents nRes attempt, [],
            .fail (.serverError
              ("Received unexpected response of type " ++ r.contentType)
              route (.str r.rawText) r.status))) ∧
      (∀ d tl, backoff = d :: tl →
        interpretAttempt route realHash nRes attempt r backoff =
          (preSendEvents nRes attempt ++ [.backoffSleep d], tl, .retry))) ∧
    (r.contentType ≠ "text/plain" → r.contentType ≠ "text/html" →
      r.contentType ≠ "application/json" → r.status < 400 →
      interpretAttempt route realHash nRes attempt r backoff =
        (preSendEvents nRes attempt ++
          [Event.updateRL route realHash r.bucket r.remaining r.limit
            r.nowDate r.reset],
          backoff, .done none)) := by
  constructor
  · intro htext
    have hj : r.contentType ≠ "application/json" := by
      rcases htext with h | h <;> simp [h]
    have hcb : computeBody r = .badContent := by
      simp [computeBody, hj, htext]
    constructor
    · intro hb
      subst hb
      simp [interpretAttempt, hcb, handleBadResponse]
    · intro d tl hb
      subst hb
      simp [interpretAttempt, hcb, handleBadResponse]
  · intro hplain hhtml hj hlt
    have hcb : computeBody r = .ok none := by
      simp [computeBody, hj, hplain, hhtml]
    have h429 : r.status ≠ 429 := by omega
    have h400 : ¬ (400 ≤ r.status) := by omega
    simp [interpretAttempt, hcb, classify, h429, h400]

/-- Witness for the amended C3: the text/plain branch consumes the next
backoff delay and retries, and the xml branch returns success. -/
theorem onlyTextContentRetriedWitness :
    interpretAttempt "routeD" "hashD" 0 0 samplePlainC2 [3] =
      (preSendEvents 0 0 ++ [.backoffSleep 3], [], .retry) ∧
    interpretAttempt "routeD" "hashD" 0 0 sampleXmlC3 [5] =
      (preSendEvents 0 0 ++
        [Event.updateRL "routeD" "hashD" "x" 1 1 0 0], [5], .done none) :=
  ⟨((onlyTextContentRetried "routeD" "hashD" 0 0 samplePlainC2 [3]).1
      (Or.inl rfl)).2 3 [] rfl,
    (onlyTextContentRetried "routeD" "hashD" 0 0 sampleXmlC3 [5]).2
      (by decide) (by decide) (by decide) (by decide)⟩

/-- Response refuting C9: a 204 whose content type is text/plain. -/
def sample204Plain : Response :=
  { status := 204, httpReason := "No Content", contentType := "text/plain",
    limit := 1, remaining := 1, bucket := "n", reset := 0, nowDate := 0,
    decoded := .error .valueError, rawText := "" }

/-- Counterexample to C9: a 204 response declaring content type
text/plain is not returned as an empty result — with the backoff
exhausted the attempt raises ServerHTTPError instead of returning None,
so the 204 outcome does depend on the declared content type. -/
theorem noContent204NotAlwaysNoneCounterexample :
    interpretAttempt "routeI" "hashI" 0 0 sample204Plain [] =
      (preSendEvents 0 0, [],
        .fail (.serverError
          "Received unexpected response of type text/plain" "routeI"
          (.str "") 204)) ∧
    (interpretAttempt "routeI" "hashI" 0 0 sample204Plain []).2.2 ≠
      .done none :=
  ⟨rfl, fun h => nomatch h⟩

/-- C9 amended: a 204 response yields the empty result None only when its
content type is neither application/json nor text/plain nor text/html;
with content type application/json the deserialized body is returned
instead (lines 198-201 assign body = None and then overwrite it), and
with text/plain or text/html the 204 goes down the malformed-response
backoff path. -/
theorem noContent204Decoding (route realHash : String)
    (nRes attempt : Nat) (r : Response) (backoff : List ℚ)
    (h204 : r.status = 204) :
    (r.contentType ≠ "application/json" → r.contentType ≠ "text/plain" →
      r.contentType ≠ "text/html" →
      interpretAttempt route realHash nRes attempt r backoff =
        (preSendEvents nRes attempt ++
          [Event.updateRL route realHash r.bucket r.remaining r.limit
            r.nowDate r.reset],
          backoff, .done none)) ∧
    (∀ v, r.contentType = "application/json" → r.decoded = .ok v →
      interpretAttempt route realHash nRes attempt r backoff =
        (preSendEvents nRes attempt ++
          [Event.updateRL route realHash r.bucket r.remaining r.limit
            r.nowDate r.reset],
          backoff, .done (some v))) := by
  have h429 : r.status ≠ 429 := by omega
  have h400 : ¬ (400 ≤ r.status) := by omega
  constructor
  · intro hj hplain hhtml
    have hcb : computeBody r = .ok none := by
      simp [computeBody, hj, hplain, hhtml]
    simp [interpretAttempt, hcb, classify, h429, h400]
  · intro v hj hv
    have hcb : computeBody r = .ok (some v) := by simp [computeBody, hj, hv]
    simp [interpretAttempt, hcb, classify, h429, h400]

/-- Response used by the C9 witness: a 204 with a binary content type. -/
def sample204Binary : Response :=
  { status := 204, httpReason := "No Content",
    contentType := "application/octet-stream",
    limit := 1, remaining := 1, bucket := "n", reset := 0, nowDate := 0,
    decoded := .error .valueError, rawText := "" }

/-- Witness for the amended C9: a 204 with a binary content type returns
None. -/
theorem noContent204DecodingWitness :
    interpretAttempt "routeI2" "hashI2" 0 0 sample204Binary [] =
      (preSendEvents 0 0 ++
        [Event.updateRL "routeI2" "hashI2" "n" 1 1 0 0], [], .done none) :=
  (noContent204Decoding "routeI2" "hashI2" 0 0 sample204Binary [] rfl).1
    (by decide) (by decide) (by decide)

/-- Response exhibiting the C4 failing input: a 500 whose content type is
neither application/json nor text/plain nor text/html, so body stays
None at line 212. -/
def sample500NoBody : Response :=
  { status := 500, httpReason := "Internal Server Error",
    contentType := "application/octet-stream",
    limit := 1, remaining := 1, bucket := "s", reset := 0, nowDate := 0,
    decoded := .error .valueError, rawText := "" }

/-- C4 failing input evaluated: on a 500 response with an absent body
(content type application/octet-stream) the executor does not consult the
backoff generator at all — body["message"] at line 227 raises TypeError
(None is not subscriptable), which the except clause of line 229 does not
catch, so the uncaught Python error propagates with the backoff sequence
untouched instead of a retry or a ServerHTTPError. -/
theorem serverError500CrashesWithoutBackoff :
    interpretAttempt "routeE" "hashE" 0 0 sample500NoBody [3, 4] =
      (preSendEvents 0 0 ++
        [Event.updateRL "routeE" "hashE" "s" 1 1 0 0],
        [3, 4], .crash .typeError) :=
  rfl

/-- Response exhibiting the C5 failing input: a 400 with no decodable
body. -/
def sample400NoBody : Response :=
  { status := 400, httpReason := "Bad Request",
    contentType := "application/octet-stream",
    limit := 1, remaining := 1, bucket := "c", reset := 0, nowDate := 0,
    decoded := .error .valueError, rawText := "" }

/-- C5 failing input evaluated: a 400 response with an absent body does
not fall back to the defaults ("", -1) and a BadRequestHTTPError — the
except clause of line 229 catches only ValueError and KeyError, so the
TypeError of subscripting None propagates uncaught. -/
theorem clientError400CrashesOnAbsentBody :
    interpretAttempt "routeF" "hashF" 0 0 sample400NoBody [] =
      (preSendEvents 0 0 ++
        [Event.updateRL "routeF" "hashF" "c" 1 1 0 0],
        [], .crash .typeError) :=
  rfl

theorem countEvents_append (p : Event → Bool) (xs ys : List Event) :
    countEvents p (xs ++ ys) = countEvents p xs + countEvents p ys := by
  simp [countEvents, List.filter_append]

theorem countEvents_cons (p : Event → Bool) (e : Event) (evs : List Event) :
    countEvents p (e :: evs) =
      (if p e then 1 else 0) + countEvents p evs := by
  by_cases h : p e <;>
    simp [countEvents, List.filter_cons, h, Nat.add_comm]

theorem countEvents_zero_of_all (p q : Event → Bool)
    (h : ∀ e, q e = true → p e = false) :
    ∀ evs : List Event, evs.all q = true → countEvents p evs = 0 := by
  intro evs
  induction evs with
  | nil => intro _; rfl
  | cons e t ih =>
      intro hall
      rw [List.all_cons, Bool.and_eq_true] at hall
      simp [countEvents_cons, h e hall.1, ih hall.2]

theorem countEvents_map_seek (p : Event → Bool)
    (h : ∀ i, p (Event.seek i) = false) (l : List Nat) :
    countEvents p (l.map Event.seek) = 0 := by
  induction l with
  | nil => rfl
  | cons i t ih => simp [countEvents_cons, h i, ih]

/-- Scanner for the acquisition discipline of one run: before every
transport send both the bucket future must have been awaited and
global_ratelimiter.acquire() performed since the previous send. -/
def gateCheck : List Event → Bool → Bool → Bool
  | [], _, _ => true
  | Event.awaitBucketFuture :: rest, _, g => gateCheck rest true g
  | Event.acquireGlobal :: rest, f, _ => gateCheck rest f true
  | Event.send _ :: rest, f, g => f && g && gateCheck rest false false
  | _ :: rest, f, g => gateCheck rest f g

theorem gateCheck_cons_neutral (e : Event)
    (h1 : isAwaitBucketFuture e = false) (h2 : isAcquireGlobal e = false)
    (h3 : isSend e = false) (l : List Event) (f g : Bool) :
    gateCheck (e :: l) f g = gateCheck l f g := by
  cases e <;> simp_all [isAwaitBucketFuture, isAcquireGlobal, isSend, gateCheck]

theorem gateCheck_append_neutral (xs : List Event)
    (h : ∀ e ∈ xs, isAwaitBucketFuture e = false ∧ isAcquireGlobal e = false ∧
      isSend e = false) :
    ∀ (ys : List Event) (f g : Bool),
      gateCheck (xs ++ ys) f g = gateCheck ys f g := by
  induction xs with
  | nil => intro ys f g; rfl
  | cons e t ih =>
      intro ys f g
      have he := h e (by simp)
      rw [List.cons_append, gateCheck_cons_neutral e he.1 he.2.1 he.2.2]
      exact ih (fun x hx => h x (by simp [hx])) ys f g

theorem gateCheck_attempt (nRes attempt : Nat) (tail next : List Event)
    (f g : Bool)
    (h : ∀ e ∈ tail, isAwaitBucketFuture e = false ∧ isAcquireGlobal e = false ∧
      isSend e = false) :
    gateCheck ((preSendEvents nRes attempt ++ tail) ++ next) f g =
      gateCheck next false false := by
  have hseeks : ∀ e ∈ (List.range nRes).map Event.seek,
      isAwaitBucketFuture e = false ∧ isAcquireGlobal e = false ∧
        isSend e = false := by
    intro e he
    rw [List.mem_map] at he
    obtain ⟨i, -, hi⟩ := he
    subst hi
    exact ⟨rfl, rfl, rfl⟩
  simp only [preSendEvents, List.append_assoc, List.cons_append,
    List.nil_append]
  rw [gateCheck_append_neutral _ hseeks]
  simp only [gateCheck]
  exact gateCheck_append_neutral tail h next false false

/-- Scanner for the stream-rewind discipline of one run: at every
transport send, every resource index below n must have been rewound (its
seek(0) emitted) since the previous send. -/
def rewindCheck (n : Nat) : List Event → List Nat → Bool
  | [], _ => true
  | Event.seek i :: rest, seen => rewindCheck n rest (i :: seen)
  | Event.send _ :: rest, seen =>
      ((List.range n).all fun i => decide (i ∈ seen)) && rewindCheck n rest []
  | _ :: rest, seen => rewindCheck n rest seen

theorem rewindCheck_cons_neutral (n : Nat) (e : Event)
    (h1 : isSeek e = false) (h2 : isSend e = false) (l : List Event)
    (seen : List Nat) :
    rewindCheck n (e :: l) seen = rewindCheck n l seen := by
  cases e <;> simp_all [isSeek, isSend, rewindCheck]

theorem rewindCheck_append_neutral (n : Nat) (xs : List Event)
    (h : ∀ e ∈ xs, isSeek e = false ∧ isSend e = false) :
    ∀ (ys : List Event) (seen : List Nat),
      rewindCheck n (xs ++ ys) seen = rewindCheck n ys seen := by
  induction xs with
  | nil => intro ys seen; rfl
  | cons e t ih =>
      intro ys seen
      have he := h e (by simp)
      rw [List.cons_append, rewindCheck_cons_neutral n e he.1 he.2]
      exact ih (fun x hx => h x (by simp [hx])) ys seen

theorem rewindCheck_seeks (n : Nat) (l : List Nat) (ys : List Event) :
    ∀ seen : List Nat,
      rewindCheck n ((l.map Event.seek) ++ ys) seen =
        rewindCheck n ys (l.reverse ++ seen) := by
  induction l with
  | nil => intro seen; rfl
  | cons i t ih =>
      intro seen
      simp only [List.map_cons, List.cons_append]
      rw [show rewindCheck n (Event.seek i :: (t.map Event.seek ++ ys)) seen =
        rewindCheck n (t.map Event.seek ++ ys) (i :: seen) from rfl]
      rw [ih (i :: seen)]
      congr 1
      simp [List.reverse_cons, List.append_assoc]

theorem range_all_mem (n : Nat) (seen : List Nat) :
    ((List.range n).all fun i =>
      decide (i ∈ (List.range n).reverse ++ seen)) = true := by
  rw [List.all_eq_true]
  intro i hi
  rw [decide_eq_true_eq, List.mem_append, List.mem_reverse]
  exact Or.inl hi

theorem rewindCheck_attempt (n attempt : Nat) (tail next : List Event)
    (seen : List Nat)
    (h : ∀ e ∈ tail, isSeek e = false ∧ isSend e = false) :
    rewindCheck n ((preSendEvents n attempt ++ tail) ++ next) seen =
      rewindCheck n next [] := by
  simp only [preSendEvents, List.append_assoc, List.cons_append,
    List.nil_append]
  rw [rewindCheck_seeks]
  simp only [rewindCheck]
  rw [range_all_mem, Bool.true_and]
  exact rewindCheck_append_neutral n tail h next []

theorem interpTail_not_seek_send (tail : List Event)
    (htail : tail.all interpOnly = true) :
    ∀ e ∈ tail, isSeek e = false ∧ isSend e = false := by
  intro e he
  rw [List.all_eq_true] at htail
  have h := htail e he
  cases e <;> simp_all [interpOnly, isSeek, isSend]

theorem interpTail_gate_neutral (tail : List Event)
    (htail : tail.all interpOnly = true) :
    ∀ e ∈ tail, isAwaitBucketFuture e = false ∧ isAcquireGlobal e = false ∧
      isSend e = false := by
  intro e he
  rw [List.all_eq_true] at htail
  have h := htail e he
  cases e <;>
    simp_all [interpOnly, isAwaitBucketFuture, isAcquireGlobal, isSend]

theorem requestLoop_rewinds (route realHash : String) (nRes : Nat) :
    ∀ (responses : List Response) (backoff : List ℚ) (attempt : Nat)
      (seen : List Nat),
      rewindCheck nRes
        (requestLoop route realHash nRes backoff responses attempt).1 seen =
        true := by
  intro responses
  induction responses with
  | nil => intro backoff attempt seen; rfl
  | cons r rest ih =>
      intro backoff attempt seen
      obtain ⟨tail, hev, htail⟩ :=
        interpretAttempt_shape route realHash nRes attempt r backoff
      rcases hI : interpretAttempt route realHash nRes attempt r backoff with
        ⟨evs, bk2, st⟩
      rw [hI] at hev
      simp only at hev
      subst hev
      have hneutral := interpTail_not_seek_send tail htail
      cases st with
      | retry =>
          simp only [requestLoop, hI]
          rw [rewindCheck_attempt nRes attempt tail _ seen hneutral]
          exact ih bk2 (attempt + 1) []
      | done b =>
          simp only [requestLoop, hI]
          rw [show preSendEvents nRes attempt ++ tail =
            (preSendEvents nRes attempt ++ tail) ++ [] by simp]
          rw [rewindCheck_attempt nRes attempt tail [] seen hneutral]
          rfl
      | fail e =>
          simp only [requestLoop, hI]
          rw [show preSendEvents nRes attempt ++ tail =
            (preSendEvents nRes attempt ++ tail) ++ [] by simp]
          rw [rewindCheck_attempt nRes attempt tail [] seen hneutral]
          rfl
      | crash e =>
          simp only [requestLoop, hI]
          rw [show preSendEvents nRes attempt ++ tail =
            (preSendEvents nRes attempt ++ tail) ++ [] by simp]
          rw [rewindCheck_attempt nRes attempt tail [] seen hneutral]
          rfl

/-- C8: every run of _request rewinds every re-seekable resource to
position 0 before every transport send, the first attempt included: the
rewindCheck scanner, which demands at each send event that all nRes
resource indices have been re-wound since the previous send, accepts the
event trace of every run. -/
theorem streamsRewoundBeforeEverySend (route realHash : String)
    (nRes : Nat) (backoff : List ℚ) (responses : List Response) :
    rewindCheck nRes (runRequest route realHash nRes backoff responses).1
      [] = true := by
  unfold runRequest
  rw [rewindCheck_cons_neutral nRes Event.acquireBucket rfl rfl]
  exact requestLoop_rewinds route realHash nRes responses backoff 0 []

theorem interpOnly_no_acquireBucket :
    ∀ e, interpOnly e = true → isAcquireBucket e = false := by
  intro e h
  cases e <;> simp_all [interpOnly, isAcquireBucket]

theorem interpOnly_no_send :
    ∀ e, interpOnly e = true → isSend e = false := by
  intro e h
  cases e <;> simp_all [interpOnly, isSend]

theorem interpOnly_no_acquireGlobal :
    ∀ e, interpOnly e = true → isAcquireGlobal e = false := by
  intro e h
  cases e <;> simp_all [interpOnly, isAcquireGlobal]

theorem interpOnly_no_awaitBucketFuture :
    ∀ e, interpOnly e = true → isAwaitBucketFuture e = false := by
  intro e h
  cases e <;> simp_all [interpOnly, isAwaitBucketFuture]

theorem requestLoop_acquire_counts (route realHash : String) (nRes : Nat) :
    ∀ (responses : List Response) (backoff : List ℚ) (attempt : Nat),
      countEvents isAcquireBucket
        (requestLoop route realHash nRes backoff responses attempt).1 = 0 ∧
      countEvents isAcquireGlobal
        (requestLoop route realHash nRes backoff responses attempt).1 =
        countEvents isSend
          (requestLoop route realHash nRes backoff responses attempt).1 ∧
      countEvents isAwaitBucketFuture
        (requestLoop route realHash nRes backoff responses attempt).1 =
        countEvents isSend
          (requestLoop route realHash nRes backoff responses attempt).1 := by
  intro responses
  induction responses with
  | nil => intro backoff attempt; exact ⟨rfl, rfl, rfl⟩
  | cons r rest ih =>
      intro backoff attempt
      obtain ⟨tail, hev, htail⟩ :=
        interpretAttempt_shape route realHash nRes attempt r backoff
      rcases hI : interpretAttempt route realHash nRes attempt r backoff with
        ⟨evs, bk2, st⟩
      rw [hI] at hev
      simp only at hev
      subst hev
      have hb := countEvents_zero_of_all isAcquireBucket interpOnly
        interpOnly_no_acquireBucket tail htail
      have hs := countEvents_zero_of_all isSend interpOnly
        interpOnly_no_send tail htail
      have hg := countEvents_zero_of_all isAcquireGlobal interpOnly
        interpOnly_no_acquireGlobal tail htail
      have hf := countEvents_zero_of_all isAwaitBucketFuture interpOnly
        interpOnly_no_awaitBucketFuture tail htail
      have hmb := countEvents_map_seek isAcquireBucket (fun _ => rfl)
        (List.range nRes)
      have hms := countEvents_map_seek isSend (fun _ => rfl) (List.range nRes)
      have hmg := countEvents_map_seek isAcquireGlobal (fun _ => rfl)
        (List.range nRes)
      have hmf := countEvents_map_seek isAwaitBucketFuture (fun _ => rfl)
        (List.range nRes)
      cases st with
      | retry =>
          obtain ⟨ihb, ihg, ihf⟩ := ih bk2 (attempt + 1)
          simp only [requestLoop, hI]
          constructor
          · simp [countEvents_append, preSendEvents, hmb, hb, ihb,
              countEvents_cons, isAcquireBucket]
          constructor
          · simp [countEvents_append, preSendEvents, hmg, hms, hg, hs,
              ihg, countEvents_cons, isAcquireGlobal, isSend,
              isAwaitBucketFuture]
          · simp [countEvents_append, preSendEvents, hmf, hms, hf, hs,
              ihf, countEvents_cons, isAwaitBucketFuture, isSend]
      | done b =>
          simp only [requestLoop, hI]
          refine ⟨?_, ?_, ?_⟩
          · simp [countEvents_append, preSendEvents, hmb, hb,
              countEvents_cons, isAcquireBucket]
          · simp [countEvents_append, preSendEvents, hmg, hms, hg, hs,
              countEvents_cons, isAcquireGlobal, isSend]
          · simp [countEvents_append, preSendEvents, hmf, hms, hf, hs,
              countEvents_cons, isAwaitBucketFuture, isSend]
      | fail e =>
          simp only [requestLoop, hI]
          refine ⟨?_, ?_, ?_⟩
          · simp [countEvents_append, preSendEvents, hmb, hb,
              countEvents_cons, isAcquireBucket]
          · simp [countEvents_append, preSendEvents, hmg, hms, hg, hs,
              countEvents_cons, isAcquireGlobal, isSend]
          · simp [countEvents_append, preSendEvents, hmf, hms, hf, hs,
              countEvents_cons, isAwaitBucketFuture, isSend]
      | crash e =>
          simp only [requestLoop, hI]
          refine ⟨?_, ?_, ?_⟩
          · simp [countEvents_append, preSendEvents, hmb, hb,
              countEvents_cons, isAcquireBucket]
          · simp [countEvents_append, preSendEvents, hmg, hms, hg, hs,
              countEvents_cons, isAcquireGlobal, isSend]
          · simp [countEvents_append, preSendEvents, hmf, hms, hf, hs,
              countEvents_cons, isAwaitBucketFuture, isSend]

theorem requestLoop_gate (route realHash : String) (nRes : Nat) :
    ∀ (responses : List Response) (backoff : List ℚ) (attempt : Nat)
      (f g : Bool),
      gateCheck (requestLoop route realHash nRes backoff responses attempt).1
        f g = true := by
  intro responses
  induction responses with
  | nil => intro backoff attempt f g; rfl
  | cons r rest ih =>
      intro backoff attempt f g
      obtain ⟨tail, hev, htail⟩ :=
        interpretAttempt_shape route realHash nRes attempt r backoff
      rcases hI : interpretAttempt route realHash nRes attempt r backoff with
        ⟨evs, bk2, st⟩
      rw [hI] at hev
      simp only at hev
      subst hev
      have hneutral := interpTail_gate_neutral tail htail
      cases st with
      | retry =>
          simp only [requestLoop, hI]
          rw [gateCheck_attempt nRes attempt tail _ f g hneutral]
          exact ih bk2 (attempt + 1) false false
      | done b =>
          simp only [requestLoop, hI]
          rw [show preSendEvents nRes attempt ++ tail =
            (preSendEvents nRes attempt ++ tail) ++ [] by simp]
          rw [gateCheck_attempt nRes attempt tail [] f g hneutral]
          rfl
      | fail e =>
          simp only [requestLoop, hI]
          rw [show preSendEvents nRes attempt ++ tail =
            (preSendEvents nRes attempt ++ tail) ++ [] by simp]
          rw [gateCheck_attempt nRes attempt tail [] f g hneutral]
          rfl
      | crash e =>
          simp only [requestLoop, hI]
          rw [show preSendEvents nRes attempt ++ tail =
            (preSendEvents nRes attempt ++ tail) ++ [] by simp]
          rw [gateCheck_attempt nRes attempt tail [] f g hneutral]
          rfl

/-- Response used by the C7 counterexample: a 500 with a well-formed JSON
error body, which the executor retries via backoff. -/
def sample500Json : Response :=
  { status := 500, httpReason := "Internal Server Error",
    contentType := "application/json",
    limit := 1, remaining := 1, bucket := "g", reset := 0, nowDate := 0,
    decoded := .ok (.obj [("message", .str "oops"), ("code", .num 0)]),
    rawText := "" }

/-- Response used by the C7 counterexample: the succeeding retry. -/
def sample200Json : Response :=
  { status := 200, httpReason := "OK", contentType := "application/json",
    limit := 1, remaining := 1, bucket := "g", reset := 0, nowDate := 0,
    decoded := .ok (.obj []), rawText := "" }

/-- Counterexample to C7: in a run with one retry (a 500 then a 200,
backoff budget one delay) there are two transport sends but the bucket
limiter manager's acquire is performed only once — line 123 sits before
the while-True loop — so bucket acquisition is not re-performed per
attempt as the claim states. -/
theorem bucketAcquireOncePerRunCounterexample :
    countEvents isSend
      (runRequest "routeG" "hashG" 1 [1] [sample500Json, sample200Json]).1
      = 2 ∧
    countEvents isAcquireBucket
      (runRequest "routeG" "hashG" 1 [1] [sample500Json, sample200Json]).1
      = 1 :=
  ⟨rfl, rfl⟩

/-- C7 amended: every run calls the bucket limiter manager's acquire
exactly once (before the first attempt); each send attempt — the first
and every retry — awaits the bucket future obtained there together with a
fresh global limiter acquire before its transport call (gateCheck), and
the retry loop re-enters with the same compiled route, resources and the
threaded backoff generator state, global and future awaits matching the
send count one for one. -/
theorem acquireDisciplinePerRun (route realHash : String) (nRes : Nat)
    (backoff : List ℚ) (responses : List Response) :
    countEvents isAcquireBucket
      (runRequest route realHash nRes backoff responses).1 = 1 ∧
    countEvents isAcquireGlobal
      (runRequest route realHash nRes backoff responses).1 =
      countEvents isSend
        (runRequest route realHash nRes backoff responses).1 ∧
    countEvents isAwaitBucketFuture
      (runRequest route realHash nRes backoff responses).1 =
      countEvents isSend
        (runRequest route realHash nRes backoff responses).1 ∧
    gateCheck (runRequest route realHash nRes backoff responses).1
      false false = true := by
  obtain ⟨hb, hg, hf⟩ :=
    requestLoop_acquire_counts route realHash nRes responses backoff 0
  have hgate := requestLoop_gate route realHash nRes responses backoff 0
  unfold runRequest
  refine ⟨?_, ?_, ?_, ?_⟩
  · simp [countEvents_cons, isAcquireBucket, hb]
  · simp [countEvents_cons, isAcquireGlobal, isSend, hg]
  · simp [countEvents_cons, isAwaitBucketFuture, isSend, hf]
  · rw [gateCheck_cons_neutral Event.acquireBucket rfl rfl rfl]
    exact hgate false false

theorem dictSet_all (p : String × String → Bool)
    (d : List (String × String)) (k v : String)
    (hd : d.all p = true) (hkv : p (k, v) = true) :
    (dictSet d k v).all p = true := by
  rw [List.all_eq_true] at hd ⊢
  unfold dictSet
  split
  · intro kv hkv'
    rw [List.mem_map] at hkv'
    obtain ⟨x, hx, hfx⟩ := hkv'
    by_cases hk : x.1 = k
    · rw [if_pos hk] at hfx
      rw [← hfx]
      exact hkv
    · rw [if_neg hk] at hfx
      rw [← hfx]
      exact hd x hx
  · intro kv hkv'
    rw [List.mem_append] at hkv'
    rcases hkv' with h | h
    · exact hd kv h
    · rw [List.mem_singleton] at h
      rw [h]
      exact hkv

theorem dictUpdate_all (p : String × String → Bool) :
    ∀ (extra d : List (String × String)), d.all p = true →
      extra.all p = true → (dictUpdate d extra).all p = true := by
  intro extra
  induction extra with
  | nil => intro d hd _; exact hd
  | cons kv rest ih =>
      intro d hd hextra
      rw [List.all_cons, Bool.and_eq_true] at hextra
      exact ih (dictSet d kv.1 kv.2)
        (dictSet_all p d kv.1 kv.2 hd hextra.1) hextra.2

theorem startsWithScheme_eq (t : String) :
    startsWithScheme t = (pyStartswith t "Bearer" || pyStartswith t "Bot") := by
  simp [startsWithScheme, AUTHENTICATION_SCHEMES, List.any]

theorem initHTTPClient_isOk (t : String) :
    (initHTTPClient (some t)).isOk = startsWithScheme t := by
  unfold initHTTPClient
  by_cases h : startsWithScheme t <;> simp [h, Except.isOk, Except.toBool]

/-- C10: constructing the client raises RuntimeError exactly when the
token is not None and starts with neither the scheme Bearer nor the
scheme Bot (Python startswith against the _AUTHENTICATION_SCHEMES tuple);
a None token is accepted, and then no Authorization header appears in the
request headers built at lines 124-133 (provided the caller-supplied
extra headers do not themselves carry one). -/
theorem tokenValidationAndAuthHeader (token : Option String) :
    ((initHTTPClient token).isOk = false ↔
      ∃ t, token = some t ∧
        (pyStartswith t "Bearer" || pyStartswith t "Bot") = false) ∧
    (token = none → ∀ (reasonHeader : Option String)
      (extra : List (String × String)),
      extra.all (fun kv => !(kv.1 == "Authorization")) = true →
      (buildRequestHeaders token reasonHeader (some extra)).all
        (fun kv => !(kv.1 == "Authorization")) = true) := by
  constructor
  · constructor
    · intro hfalse
      cases token with
      | none => simp [initHTTPClient, Except.isOk, Except.toBool] at hfalse
      | some t =>
          refine ⟨t, rfl, ?_⟩
          rw [initHTTPClient_isOk] at hfalse
          rw [← startsWithScheme_eq]
          exact hfalse
    · rintro ⟨t, ht, hsch⟩
      subst ht
      rw [initHTTPClient_isOk, startsWithScheme_eq]
      exact hsch
  · intro hnone reasonHeader extra hextra
    subst hnone
    unfold buildRequestHeaders
    cases reasonHeader with
    | none =>
        exact dictUpdate_all _ extra _ (by decide) hextra
    | some rs =>
        refine dictUpdate_all _ extra _ ?_ hextra
        exact dictSet_all _ _ _ _ (by decide) rfl

/-- Witness for C10: a token without a scheme is rejected, and with a
None token the built headers carry no Authorization entry. -/
theorem tokenValidationAndAuthHeaderWitness :
    (initHTTPClient (some "my-raw-token")).isOk = false ∧
    (buildRequestHeaders none (some "why") (some [("X-Thing", "1")])).all
      (fun kv => !(kv.1 == "Authorization")) = true :=
  ⟨(tokenValidationAndAuthHeader (some "my-raw-token")).1.mpr
      ⟨"my-raw-token", rfl, rfl⟩,
    (tokenValidationAndAuthHeader none).2 rfl (some "why")
      [("X-Thing", "1")] (by decide)⟩

end HikariHttp
